import Mathlib

/-!
Verification development for the dengue dashboard (`src/Dashboard.py`).

The script is embedded shallowly:
* a dataframe row is a `Row` (the CSV columns plus the derived `Month_Num`
  column, which the script computes with `df['Month'].map(month_mapping)`);
* the dataset is a `List Row` in load order;
* each widget value is an explicit argument;
* one interaction pass of the script (totals, the Add-Data handler, the
  filtered/aggregated view and the sorted table, in the source's order of
  execution) is the function `renderPass`;
* `int(new_year)` can raise, so the Add-Data handler returns `Option`
  (`none` models the script aborting with an uncaught exception).

Pandas specifics that matter here: `sort_values` on several columns uses
`numpy.lexsort`, which is stable, and places rows whose `Month_Num` is NaN
last (`na_position='last'`); `groupby(['Year','Region'], as_index=False)`
sorts the group keys ascending.  The sort is therefore embedded as a stable
insertion sort on the key `(Year, Month_Num)` with a missing `Month_Num`
ordered after every number, and the group keys are sorted by `(Year, Region)`.
-/

namespace Dashboard

/-- A CSV record: the five data columns of the input file
(`Region`, `Year`, `Month`, `Dengue_Cases`, `Dengue_Deaths`). -/
structure RawRecord where
  region : String
  year : Int
  month : String
  dengue_Cases : Int
  dengue_Deaths : Int
deriving DecidableEq

/-- A dataframe row after line 28 of the script: the CSV columns plus the
derived `Month_Num` column, which is missing (NaN) when the month name is not
in the lookup table. -/
structure Row where
  region : String
  year : Int
  month : String
  dengue_Cases : Int
  dengue_Deaths : Int
  month_Num : Option Int
deriving DecidableEq

/-- The fixed 12-entry lookup table `month_mapping` (lines 20–24);
`Series.map` yields NaN for a key not in the dict, modelled as `none`. -/
def month_mapping : String → Option Int
  | "January" => some 1
  | "February" => some 2
  | "March" => some 3
  | "April" => some 4
  | "May" => some 5
  | "June" => some 6
  | "July" => some 7
  | "August" => some 8
  | "September" => some 9
  | "October" => some 10
  | "November" => some 11
  | "December" => some 12
  | _ => none

/-- The assignment `df['Month_Num'] = df['Month'].map(month_mapping)` applied to one row
(line 28 at load, line 87 for an appended row). -/
def addMonthNum (r : RawRecord) : Row :=
  { region := r.region, year := r.year, month := r.month,
    dengue_Cases := r.dengue_Cases, dengue_Deaths := r.dengue_Deaths,
    month_Num := month_mapping r.month }

/-- The projection `.drop(columns=["Month_Num"])` applied to one row (line 142). -/
def dropMonthNum (r : Row) : RawRecord :=
  { region := r.region, year := r.year, month := r.month,
    dengue_Cases := r.dengue_Cases, dengue_Deaths := r.dengue_Deaths }

/-- Line 33: `total_cases = df['Dengue_Cases'].sum()`. -/
def total_cases (df : List Row) : Int :=
  (df.map (·.dengue_Cases)).sum

/-- Line 34: `total_deaths = df['Dengue_Deaths'].sum()`. -/
def total_deaths (df : List Row) : Int :=
  (df.map (·.dengue_Deaths)).sum

/-- The display-mode radio button (lines 49–54): `-- Select --` is `unset`. -/
inductive Mode where
  | unset
  | cases
  | deaths
  | both
deriving DecidableEq

/-- The row test of line 94:
`df['Region'].isin(selected_regions) & df['Year'].isin(selected_years)`. -/
def regionYearPred (regions : List String) (years : List Int) (r : Row) : Bool :=
  regions.contains r.region && years.contains r.year

/-- The filter `filtered_df` (lines 94–96): restrict to the selected regions and years,
then, only when the month selection is non-empty, to the selected months. -/
def filtered_df (df : List Row) (regions : List String) (years : List Int)
    (months : List String) : List Row :=
  let f := df.filter (regionYearPred regions years)
  if months.isEmpty then f else f.filter (fun r => months.contains r.month)

/-- One bar-chart group: a `(Year, Region)` key with summed cases and deaths
(the rows of `yearly_grouped`). -/
structure Group where
  year : Int
  region : String
  dengue_Cases : Int
  dengue_Deaths : Int
deriving DecidableEq

/-- The `(Year, Region)` group key of a row (line 102). -/
def keyOf (r : Row) : Int × String := (r.year, r.region)

/-- Ascending order on group keys, year first then region name, as
`groupby(..., sort=True)` (the pandas default) orders the groups. -/
def keyLE (a b : Int × String) : Bool :=
  decide (a.1 < b.1) || (a.1 == b.1 && (compare a.2 b.2).isLE)

/-- Insert `x` before the first element `y` with `le x y`; the building block
of the stable sort. -/
def insertLE {α : Type} (le : α → α → Bool) (x : α) : List α → List α
  | [] => [x]
  | y :: ys => if le x y then x :: y :: ys else y :: insertLE le x ys

/-- Stable insertion sort: equal-key elements keep their input order, as
`numpy.lexsort` (used by multi-column `sort_values` and by `groupby`) does. -/
def isortLE {α : Type} (le : α → α → Bool) : List α → List α
  | [] => []
  | x :: xs => insertLE le x (isortLE le xs)

/-- The aggregate row of one group key `k`: the sums of `Dengue_Cases` and
`Dengue_Deaths` over the rows whose key is `k` (lines 102–105). -/
def groupFor (rows : List Row) (k : Int × String) : Group :=
  { year := k.1, region := k.2,
    dengue_Cases := ((rows.filter (fun r => decide (keyOf r = k))).map (·.dengue_Cases)).sum,
    dengue_Deaths := ((rows.filter (fun r => decide (keyOf r = k))).map (·.dengue_Deaths)).sum }

/-- The aggregation `yearly_grouped = filtered_df.groupby(['Year','Region'], as_index=False)
.agg({'Dengue_Cases': 'sum', 'Dengue_Deaths': 'sum'})` (lines 102–105):
one aggregate row per distinct key, keys sorted ascending. -/
def yearly_grouped (rows : List Row) : List Group :=
  (isortLE keyLE ((rows.map keyOf).dedup)).map (groupFor rows)

/-- The outcome of the main-page view logic (lines 93–137). -/
inductive ViewStatus where
  | showAll
  | promptForMode
  | ready (groups : List Group) (mode : Mode)
deriving DecidableEq

/-- The main-page content (lines 93–137): `show-all` when the region or year
selection is empty (Python truthiness of the lists at line 93),
`prompt-for-mode` when the radio button is still `-- Select --` (line 98),
otherwise the aggregated view tagged with the display mode. -/
def applyFilters (df : List Row) (regions : List String) (years : List Int)
    (months : List String) (mode : Mode) : ViewStatus :=
  if !regions.isEmpty && !years.isEmpty then
    let fdf := filtered_df df regions years months
    match mode with
    | .unset => .promptForMode
    | m => .ready (yearly_grouped fdf) m
  else
    .showAll

/-- Ascending order on the sort key `(Year, Month_Num)` of line 142, with a
missing `Month_Num` (NaN) ordered after every number (`na_position='last'`). -/
def optIntLE : Option Int → Option Int → Bool
  | some x, some y => decide (x ≤ y)
  | some _, none => true
  | none, some _ => false
  | none, none => true

/-- Row order of `df.sort_values(by=["Year", "Month_Num"])`: year first,
then month number. -/
def rowLE (a b : Row) : Bool :=
  decide (a.year < b.year) || (a.year == b.year && optIntLE a.month_Num b.month_Num)

/-- The sort `df.sort_values(by=["Year", "Month_Num"])` (line 142): a stable sort on
`(Year, Month_Num)`. -/
def sortStep (df : List Row) : List Row :=
  isortLE rowLE df

/-- The table `sorted_df = df.sort_values(by=["Year", "Month_Num"])
.drop(columns=["Month_Num"])` (line 142): the displayed table. -/
def sorted_df (df : List Row) : List RawRecord :=
  (sortStep df).map dropMonthNum

/-- The year options of the sidebar form (line 63):
the placeholder followed by `str(y) for y in range(2010, 2031)`. -/
def yearsWithEmpty : List String :=
  "-- Select Year --" :: ((List.range' 2010 21).map (fun y => toString y))

/-- Lines 78–87: the new row built from the sidebar form, with `Month_Num`
mapped through the lookup table exactly as at load time. -/
def mkRow (region : String) (year : Int) (month : String)
    (cases deaths : Int) : Row :=
  { region := region, year := year, month := month,
    dengue_Cases := cases, dengue_Deaths := deaths,
    month_Num := month_mapping month }

/-- Accumulate decimal digits; `none` on the first non-digit character. -/
def digitsToNat (acc : Nat) : List Char → Option Nat
  | [] => some acc
  | c :: cs =>
      if c.isDigit then digitsToNat (acc * 10 + (c.toNat - '0'.toNat)) cs
      else none

/-- Python's `int(text)` for the strings reachable from the year selector
(an optional minus sign followed by decimal digits); `none` models the
`ValueError` int() raises on anything else. -/
def parseIntText (s : String) : Option Int :=
  match s.data with
  | [] => none
  | '-' :: cs =>
      if cs.isEmpty then none
      else (digitsToNat 0 cs).map (fun n => -(n : Int))
  | cs => (digitsToNat 0 cs).map (fun n => (n : Int))

/-- What the Add-Data click produced. -/
inductive AddOutcome where
  | notClicked
  | validationError
  | added
deriving DecidableEq

/-- The Add-Data handler (lines 72–89): reject with a validation message when
any selector is still at its placeholder (line 74); otherwise parse the year
text with `int(new_year)` (`parseIntText`; `none` models the uncaught
`ValueError` aborting the script) and append the one new row at the end (`pd.concat`, line 88). -/
def addData (df : List Row) (region yearText month : String)
    (cases deaths : Int) : Option (AddOutcome × List Row) :=
  if region == "-- Select Region --" || month == "-- Select Month --"
      || yearText == "-- Select Year --" then
    some (.validationError, df)
  else
    match parseIntText yearText with
    | some y => some (.added, df ++ [mkRow region y month cases deaths])
    | none => none

/-- Everything one interaction pass displays. -/
structure PassOutput where
  totalCases : Int
  totalDeaths : Int
  outcome : AddOutcome
  view : ViewStatus
  table : List RawRecord
deriving DecidableEq

/-- One interaction pass of the script over the loaded dataset `df0`, in
source order: the totals are computed first (lines 33–34, before the Add-Data
handler), then the Add-Data click is handled (lines 72–89, rebinding `df`),
and the main view (lines 93–137) and the sorted table (line 142) are computed
from the possibly-updated `df`. -/
def renderPass (df0 : List Row) (regions : List String) (years : List Int)
    (months : List String) (mode : Mode) (addClicked : Bool)
    (region yearText month : String) (cases deaths : Int) : Option PassOutput :=
  let tc := total_cases df0
  let td := total_deaths df0
  match (if addClicked then addData df0 region yearText month cases deaths
         else some (.notClicked, df0)) with
  | none => none
  | some (oc, df) =>
      some { totalCases := tc, totalDeaths := td, outcome := oc,
             view := applyFilters df regions years months mode,
             table := sorted_df df }

/-- A sample loaded row used by concrete witnesses; its `Month_Num` is the
mapped value of its month, as the loader guarantees. -/
def sampleRow : Row :=
  { region := "NCR", year := 2016, month := "January",
    dengue_Cases := 10, dengue_Deaths := 1, month_Num := some 1 }

/-- A one-row sample dataset for concrete witnesses. -/
def sampleDS : List Row := [sampleRow]

/-! Generic facts about the stable insertion sort. -/

theorem insertLE_perm {α : Type} (le : α → α → Bool) (x : α) (l : List α) :
    List.Perm (insertLE le x l) (x :: l) := by
  induction l with
  | nil => exact List.Perm.refl _
  | cons y ys ih =>
      simp only [insertLE]
      split
      · exact List.Perm.refl _
      · exact (List.Perm.cons y ih).trans (List.Perm.swap x y ys)

theorem isortLE_perm {α : Type} (le : α → α → Bool) (l : List α) :
    List.Perm (isortLE le l) l := by
  induction l with
  | nil => exact List.Perm.refl _
  | cons x xs ih => exact (insertLE_perm le x (isortLE le xs)).trans (ih.cons x)

theorem filter_insertLE_neg {α : Type} (le : α → α → Bool) (p : α → Bool) (x : α)
    (hx : p x = false) (l : List α) :
    (insertLE le x l).filter p = l.filter p := by
  induction l with
  | nil => simp [insertLE, hx]
  | cons y ys ih =>
      simp only [insertLE]
      split
      · simp [List.filter_cons, hx]
      · simp [List.filter_cons, ih]

theorem filter_insertLE_pos {α : Type} (le : α → α → Bool) (p : α → Bool) (x : α)
    (hx : p x = true) (h : ∀ y, le x y = false → p y = false) (l : List α) :
    (insertLE le x l).filter p = x :: l.filter p := by
  induction l with
  | nil => simp [insertLE, hx]
  | cons y ys ih =>
      simp only [insertLE]
      split
      · simp [List.filter_cons, hx]
      · next hle =>
          have hpy : p y = false := h y (by simpa using hle)
          simp [List.filter_cons, hpy, ih]

/-- Stability of the insertion sort, phrased as in classical verified-sorting
developments: the sort does not disturb the subsequence of elements of any
one equivalence class, provided elements of a class compare `le` to each
other. -/
theorem isortLE_filter {α : Type} (le : α → α → Bool) (p : α → Bool)
    (h : ∀ a b, p a = true → p b = true → le a b = true) (l : List α) :
    (isortLE le l).filter p = l.filter p := by
  induction l with
  | nil => rfl
  | cons x xs ih =>
      simp only [isortLE]
      cases hx : p x with
      | false =>
          rw [filter_insertLE_neg le p x hx, ih]
          simp [List.filter_cons, hx]
      | true =>
          have hside : ∀ y, le x y = false → p y = false := by
            intro y hy
            cases hpy : p y with
            | false => rfl
            | true => rw [h x y hx hpy] at hy; cases hy
          rw [filter_insertLE_pos le p x hx hside, ih]
          simp [List.filter_cons, hx]

/-! Facts about the row order of line 142. -/

/-- Membership in the equivalence class of one `(Year, Month_Num)` sort key. -/
def sameSortKey (y : Int) (mn : Option Int) (r : Row) : Bool :=
  r.year == y && r.month_Num == mn

theorem optIntLE_refl (o : Option Int) : optIntLE o o = true := by
  cases o <;> simp [optIntLE]

theorem rowLE_of_sameSortKey (y : Int) (mn : Option Int) (a b : Row)
    (ha : sameSortKey y mn a = true) (hb : sameSortKey y mn b = true) :
    rowLE a b = true := by
  simp only [sameSortKey, Bool.and_eq_true, beq_iff_eq] at ha hb
  simp [rowLE, ha.1, ha.2, hb.1, hb.2, optIntLE_refl]

/-! Claims C2 and C8: the sorted table view. -/

/-- Claim C2 (confirmed): `sorted_df`'s sort step (line 142) is stable — for
every `(Year, Month_Num)` key, the subsequence of rows carrying that key is
unchanged by the sort, so any two rows with equal keys keep their relative
input order. -/
theorem claim_C2_sortStep_stable (df : List Row) (y : Int) (mn : Option Int) :
    (sortStep df).filter (sameSortKey y mn) = df.filter (sameSortKey y mn) :=
  isortLE_filter rowLE (sameSortKey y mn) (rowLE_of_sameSortKey y mn) df

theorem claim_C2_witness :
    (sortStep [({ region := "A", year := 2016, month := "January",
                  dengue_Cases := 10, dengue_Deaths := 1, month_Num := some 1 } : Row),
               { region := "B", year := 2016, month := "January",
                  dengue_Cases := 20, dengue_Deaths := 2, month_Num := some 1 }]).filter
        (sameSortKey 2016 (some 1))
      = ([({ region := "A", year := 2016, month := "January",
             dengue_Cases := 10, dengue_Deaths := 1, month_Num := some 1 } : Row),
          { region := "B", year := 2016, month := "January",
             dengue_Cases := 20, dengue_Deaths := 2, month_Num := some 1 }]).filter
        (sameSortKey 2016 (some 1)) :=
  claim_C2_sortStep_stable
    [{ region := "A", year := 2016, month := "January",
       dengue_Cases := 10, dengue_Deaths := 1, month_Num := some 1 },
     { region := "B", year := 2016, month := "January",
       dengue_Cases := 20, dengue_Deaths := 2, month_Num := some 1 }]
    2016 (some 1)

/-- Claim C8 (confirmed): for a non-empty dataset, `sorted_df` keeps the
length and is a permutation of the input rows, each projected by dropping
only the `Month_Num` column. -/
theorem claim_C8_sorted_perm (df : List Row) (hne : df ≠ []) :
    (sorted_df df).length = df.length
      ∧ List.Perm (sorted_df df) (df.map dropMonthNum) := by
  have hperm : List.Perm (sorted_df df) (df.map dropMonthNum) :=
    (isortLE_perm rowLE df).map dropMonthNum
  refine ⟨?_, hperm⟩
  have := hperm.length_eq
  simpa using this

theorem claim_C8_witness :
    sampleDS ≠ []
      ∧ (sorted_df sampleDS).length = sampleDS.length
      ∧ List.Perm (sorted_df sampleDS) (sampleDS.map dropMonthNum) :=
  ⟨by decide, (claim_C8_sorted_perm sampleDS (by decide)).1,
    (claim_C8_sorted_perm sampleDS (by decide)).2⟩

/-! Claim C4: empty region or year selection. -/

/-- Claim C4 (confirmed): whatever the dataset, month selection and display
mode, an empty region selection or an empty year selection short-circuits the
main view to `show-all` — no aggregated view is produced. -/
theorem claim_C4_empty_selection_show_all (df : List Row) (months : List String)
    (mode : Mode) (regions : List String) (years : List Int)
    (h : regions = [] ∨ years = []) :
    applyFilters df regions years months mode = .showAll := by
  rcases h with h | h <;> subst h <;> simp [applyFilters]

theorem claim_C4_witness :
    (([] : List String) = [] ∨ ([2016] : List Int) = [])
      ∧ applyFilters sampleDS [] [2016] ["January"] .both = .showAll :=
  ⟨Or.inl rfl,
    claim_C4_empty_selection_show_all sampleDS ["January"] .both [] [2016]
      (Or.inl rfl)⟩

/-! The Add-Data handler: shared success lemma, claims C5, C6, C3. -/

/-- When all three selectors are away from their placeholders and the year
text parses, the handler appends exactly the one new row at the end. -/
theorem addData_success (df : List Row) (region yearText month : String)
    (cases deaths y : Int)
    (hr : region ≠ "-- Select Region --") (hm : month ≠ "-- Select Month --")
    (hy : yearText ≠ "-- Select Year --") (hparse : parseIntText yearText = some y) :
    addData df region yearText month cases deaths
      = some (.added, df ++ [mkRow region y month cases deaths]) := by
  simp [addData, hr, hm, hy, hparse]

/-- Claim C5 (confirmed): a valid submission appends exactly one new row at
the end of the dataset (existing rows first, the new row last, no re-sort),
with `Month_Num` the fixed lookup value of the chosen month, and the length
grows by exactly 1. -/
theorem claim_C5_append_one (df : List Row) (region yearText month : String)
    (cases deaths y : Int)
    (hr : region ≠ "-- Select Region --") (hm : month ≠ "-- Select Month --")
    (hy : yearText ≠ "-- Select Year --") (hparse : parseIntText yearText = some y) :
    addData df region yearText month cases deaths
        = some (.added, df ++ [mkRow region y month cases deaths])
      ∧ (mkRow region y month cases deaths).month_Num = month_mapping month
      ∧ (df ++ [mkRow region y month cases deaths]).length = df.length + 1 :=
  ⟨addData_success df region yearText month cases deaths y hr hm hy hparse,
    rfl, by simp⟩

theorem claim_C5_witness :
    addData sampleDS "NCR" "2017" "March" 120 3
        = some (.added, sampleDS ++ [mkRow "NCR" 2017 "March" 120 3])
      ∧ (mkRow "NCR" 2017 "March" 120 3).month_Num = month_mapping "March"
      ∧ (sampleDS ++ [mkRow "NCR" 2017 "March" 120 3]).length = sampleDS.length + 1 :=
  claim_C5_append_one sampleDS "NCR" "2017" "March" 120 3 2017
    (by decide) (by decide) (by decide) (by decide)

/-- Claim C6 (confirmed): a submission with any selector still at its
placeholder is rejected with the validation message and hands back the
dataset unchanged — same list, hence same length and records. -/
theorem claim_C6_placeholder_rejected (df : List Row)
    (region yearText month : String) (cases deaths : Int)
    (h : region = "-- Select Region --" ∨ month = "-- Select Month --"
      ∨ yearText = "-- Select Year --") :
    addData df region yearText month cases deaths = some (.validationError, df) := by
  rcases h with h | h | h <;> simp [addData, h]

theorem claim_C6_witness :
    ("-- Select Region --" = "-- Select Region --"
        ∨ "March" = "-- Select Month --" ∨ "2017" = "-- Select Year --")
      ∧ addData sampleDS "-- Select Region --" "2017" "March" 5 0
          = some (.validationError, sampleDS) :=
  ⟨Or.inl rfl,
    claim_C6_placeholder_rejected sampleDS "-- Select Region --" "2017" "March" 5 0
      (Or.inl rfl)⟩

/-- Claim C3 (counterexample): a submission with valid selectors but a
negative `Cases` value is NOT rejected — the handler appends it and the
dataset changes. The only non-negativity guarantee is the entry widget's
`min_value=0`; the handler itself performs no sign check (lines 72–89). -/
theorem claim_C3_counterexample :
    addData sampleDS "NCR" "2017" "January" (-1) 0
        = some (.added, sampleDS ++ [mkRow "NCR" 2017 "January" (-1) 0])
      ∧ sampleDS ++ [mkRow "NCR" 2017 "January" (-1) 0] ≠ sampleDS := by
  constructor
  · decide
  · decide

/-- Claim C3 (amended): the handler performs no negativity check — a
submission with valid selectors and a negative `Cases` or `Deaths` value is
appended like any other, growing the dataset by one; non-negative inputs are
guaranteed only by the entry widgets' minimum of zero. -/
theorem claim_C3_amended_negative_appended (df : List Row)
    (region yearText month : String) (cases deaths y : Int)
    (hr : region ≠ "-- Select Region --") (hm : month ≠ "-- Select Month --")
    (hy : yearText ≠ "-- Select Year --") (hparse : parseIntText yearText = some y)
    (hneg : cases < 0 ∨ deaths < 0) :
    addData df region yearText month cases deaths
        = some (.added, df ++ [mkRow region y month cases deaths])
      ∧ (df ++ [mkRow region y month cases deaths]).length = df.length + 1 :=
  ⟨addData_success df region yearText month cases deaths y hr hm hy hparse,
    by simp⟩

/-! Claim C7: aggregation preserves column sums. -/

theorem sum_map_filter_split {α : Type} (f : α → Int) (p : α → Bool) (l : List α) :
    ((l.filter p).map f).sum + ((l.filter (fun a => !p a)).map f).sum
      = (l.map f).sum := by
  induction l with
  | nil => simp
  | cons x xs ih => cases hx : p x <;> simp [List.filter_cons, hx] <;> omega

/-- Summing a column group-by-group over any duplicate-free list of keys that
covers every row's key recovers the column's total sum. -/
theorem sum_partition {α κ : Type} [DecidableEq κ] (f : α → Int) (key : α → κ) :
    ∀ K : List κ, K.Nodup → ∀ rows : List α, (∀ r ∈ rows, key r ∈ K) →
      (K.map (fun k => ((rows.filter (fun r => decide (key r = k))).map f).sum)).sum
        = (rows.map f).sum := by
  intro K
  induction K with
  | nil =>
      intro _ rows hcov
      have hrows : rows = [] := by
        cases rows with
        | nil => rfl
        | cons r rs => exact absurd (hcov r (List.mem_cons_self r rs)) (List.not_mem_nil _)
      subst hrows
      simp
  | cons k K ih =>
      intro hnd rows hcov
      obtain ⟨hk, hndK⟩ := List.nodup_cons.mp hnd
      have hcov' : ∀ r ∈ rows.filter (fun r => !decide (key r = k)), key r ∈ K := by
        intro r hr
        obtain ⟨hr1, hr2⟩ := List.mem_filter.mp hr
        have hne : key r ≠ k := by simpa using hr2
        rcases List.mem_cons.mp (hcov r hr1) with h | h
        · exact absurd h hne
        · exact h
      have hmap : ∀ k' ∈ K,
          ((rows.filter (fun r => decide (key r = k'))).map f).sum
            = (((rows.filter (fun r => !decide (key r = k))).filter
                (fun r => decide (key r = k'))).map f).sum := by
        intro k' hk'
        have hkk : k ≠ k' := fun h => hk (h ▸ hk')
        have hfil : (rows.filter (fun r => !decide (key r = k))).filter
              (fun r => decide (key r = k'))
            = rows.filter (fun r => decide (key r = k')) := by
          rw [List.filter_filter]
          refine List.filter_congr ?_
          intro r _
          by_cases h : key r = k'
          · simp [h]
            exact Ne.symm hkk
          · simp [h]
        rw [hfil]
      calc ((k :: K).map
              (fun k => ((rows.filter (fun r => decide (key r = k))).map f).sum)).sum
          = ((rows.filter (fun r => decide (key r = k))).map f).sum
              + (K.map
                  (fun k' => ((rows.filter (fun r => decide (key r = k'))).map f).sum)).sum := by
            simp
        _ = ((rows.filter (fun r => decide (key r = k))).map f).sum
              + (K.map (fun k' => (((rows.filter (fun r => !decide (key r = k))).filter
                  (fun r => decide (key r = k'))).map f).sum)).sum := by
            rw [List.map_congr_left hmap]
        _ = ((rows.filter (fun r => decide (key r = k))).map f).sum
              + ((rows.filter (fun r => !decide (key r = k))).map f).sum := by
            rw [ih hndK _ hcov']
        _ = (rows.map f).sum := sum_map_filter_split f _ rows

/-- The grouping step `yearly_grouped` preserves the sums of both summed columns. -/
theorem yearly_grouped_sum (rows : List Row) :
    ((yearly_grouped rows).map (·.dengue_Cases)).sum = (rows.map (·.dengue_Cases)).sum
    ∧ ((yearly_grouped rows).map (·.dengue_Deaths)).sum
        = (rows.map (·.dengue_Deaths)).sum := by
  have hperm := isortLE_perm keyLE ((rows.map keyOf).dedup)
  have hnd := List.nodup_dedup (rows.map keyOf)
  have hcov : ∀ r ∈ rows, keyOf r ∈ (rows.map keyOf).dedup := fun r hr =>
    List.mem_dedup.mpr (List.mem_map_of_mem keyOf hr)
  constructor
  · have h1 : (yearly_grouped rows).map (·.dengue_Cases)
        = (isortLE keyLE ((rows.map keyOf).dedup)).map
            (fun k => ((rows.filter (fun r => decide (keyOf r = k))).map
              (·.dengue_Cases)).sum) := by
      rw [yearly_grouped, List.map_map]
      rfl
    rw [h1, (hperm.map _).sum_eq]
    exact sum_partition _ keyOf _ hnd rows hcov
  · have h2 : (yearly_grouped rows).map (·.dengue_Deaths)
        = (isortLE keyLE ((rows.map keyOf).dedup)).map
            (fun k => ((rows.filter (fun r => decide (keyOf r = k))).map
              (·.dengue_Deaths)).sum) := by
      rw [yearly_grouped, List.map_map]
      rfl
    rw [h2, (hperm.map _).sum_eq]
    exact sum_partition _ keyOf _ hnd rows hcov

/-- A ready view can only carry the groups aggregated from `filtered_df`. -/
theorem applyFilters_ready (df : List Row) (regions : List String) (years : List Int)
    (months : List String) (mode : Mode) (groups : List Group) (m : Mode)
    (h : applyFilters df regions years months mode = .ready groups m) :
    groups = yearly_grouped (filtered_df df regions years months) := by
  unfold applyFilters at h
  split at h
  · cases mode <;> simp_all
  · simp_all

/-- Claim C7 (confirmed): whenever the view is ready, the sum of
`Dengue_Cases` (resp. `Dengue_Deaths`) over all aggregated groups equals the
sum of that column over the filtered pre-aggregation rows — the
`(Year, Region)` grouping neither loses nor double-counts any value. -/
theorem claim_C7_aggregation_preserves_sums (df : List Row)
    (regions : List String) (years : List Int) (months : List String)
    (mode : Mode) (groups : List Group) (m : Mode)
    (h : applyFilters df regions years months mode = .ready groups m) :
    (groups.map (·.dengue_Cases)).sum
        = ((filtered_df df regions years months).map (·.dengue_Cases)).sum
    ∧ (groups.map (·.dengue_Deaths)).sum
        = ((filtered_df df regions years months).map (·.dengue_Deaths)).sum := by
  rw [applyFilters_ready df regions years months mode groups m h]
  exact yearly_grouped_sum _

theorem claim_C7_witness :
    applyFilters sampleDS ["NCR"] [2016] [] .both
        = .ready [⟨2016, "NCR", 10, 1⟩] .both
    ∧ (([⟨2016, "NCR", 10, 1⟩] : List Group).map (·.dengue_Cases)).sum
        = ((filtered_df sampleDS ["NCR"] [2016] []).map (·.dengue_Cases)).sum
    ∧ (([⟨2016, "NCR", 10, 1⟩] : List Group).map (·.dengue_Deaths)).sum
        = ((filtered_df sampleDS ["NCR"] [2016] []).map (·.dengue_Deaths)).sum :=
  ⟨by decide,
    (claim_C7_aggregation_preserves_sums sampleDS ["NCR"] [2016] [] .both
      [⟨2016, "NCR", 10, 1⟩] .both (by decide)).1,
    (claim_C7_aggregation_preserves_sums sampleDS ["NCR"] [2016] [] .both
      [⟨2016, "NCR", 10, 1⟩] .both (by decide)).2⟩

theorem claim_C3_amended_witness :
    addData sampleDS "NCR" "2017" "January" (-1) 0
        = some (.added, sampleDS ++ [mkRow "NCR" 2017 "January" (-1) 0])
      ∧ (sampleDS ++ [mkRow "NCR" 2017 "January" (-1) 0]).length
          = sampleDS.length + 1 :=
  claim_C3_amended_negative_appended sampleDS "NCR" "2017" "January" (-1) 0 2017
    (by decide) (by decide) (by decide) (by decide) (Or.inl (by decide))

/-! Claim C9: the summary totals ignore the filter selection. -/

/-- The totals of a completed pass are the column sums of the dataset as
loaded, because lines 33–34 run before the Add-Data handler and never look at
the filter widgets. -/
theorem renderPass_totals (df0 : List Row) (regions : List String)
    (years : List Int) (months : List String) (mode : Mode) (addClicked : Bool)
    (region yearText month : String) (cases deaths : Int) (out : PassOutput)
    (h : renderPass df0 regions years months mode addClicked region yearText month
          cases deaths = some out) :
    out.totalCases = total_cases df0 ∧ out.totalDeaths = total_deaths df0 := by
  unfold renderPass at h
  split at h
  · exact absurd h (by simp)
  · obtain rfl := (Option.some.inj h).symm
    exact ⟨rfl, rfl⟩

/-- Claim C9 (confirmed): two passes over the same loaded dataset with
different region/year/month selections and display modes display the same two
summary totals, and those totals are the sums over the full loaded dataset. -/
theorem claim_C9_totals_filter_independent (df : List Row)
    (regions1 : List String) (years1 : List Int) (months1 : List String)
    (mode1 : Mode) (regions2 : List String) (years2 : List Int)
    (months2 : List String) (mode2 : Mode) (addClicked : Bool)
    (region yearText month : String) (cases deaths : Int)
    (out1 out2 : PassOutput)
    (h1 : renderPass df regions1 years1 months1 mode1 addClicked region yearText
            month cases deaths = some out1)
    (h2 : renderPass df regions2 years2 months2 mode2 addClicked region yearText
            month cases deaths = some out2) :
    out1.totalCases = out2.totalCases ∧ out1.totalDeaths = out2.totalDeaths
    ∧ out1.totalCases = total_cases df ∧ out1.totalDeaths = total_deaths df := by
  obtain ⟨a1, b1⟩ := renderPass_totals _ _ _ _ _ _ _ _ _ _ _ _ h1
  obtain ⟨a2, b2⟩ := renderPass_totals _ _ _ _ _ _ _ _ _ _ _ _ h2
  exact ⟨a1.trans a2.symm, b1.trans b2.symm, a1, b1⟩

/-- Concrete pass output of an all-empty selection over `sampleDS`. -/
def c9Out1 : PassOutput :=
  ⟨10, 1, .notClicked, .showAll, [⟨"NCR", 2016, "January", 10, 1⟩]⟩

/-- Concrete pass output of a region/year selection with mode `Both` over
`sampleDS`. -/
def c9Out2 : PassOutput :=
  ⟨10, 1, .notClicked, .ready [⟨2016, "NCR", 10, 1⟩] .both,
    [⟨"NCR", 2016, "January", 10, 1⟩]⟩

theorem claim_C9_witness :
    renderPass sampleDS [] [] [] .unset false "" "" "" 0 0 = some c9Out1
    ∧ renderPass sampleDS ["NCR"] [2016] [] .both false "" "" "" 0 0 = some c9Out2
    ∧ (c9Out1.totalCases = c9Out2.totalCases
        ∧ c9Out1.totalDeaths = c9Out2.totalDeaths
        ∧ c9Out1.totalCases = total_cases sampleDS
        ∧ c9Out1.totalDeaths = total_deaths sampleDS) :=
  ⟨by decide, by decide,
    claim_C9_totals_filter_independent sampleDS [] [] [] .unset ["NCR"] [2016] []
      .both false "" "" "" 0 0 c9Out1 c9Out2 (by decide) (by decide)⟩

/-! Claim C1: is a just-appended row visible in the same pass? -/

/-- Claim C1 (counterexample): in the very pass in which the Add-Data click
succeeds, the displayed filtered/aggregated view is NOT the one computed over
the pre-append dataset — the appended row is already reflected, because line
88 rebinds `df` before lines 93–105 compute the view. -/
theorem claim_C1_counterexample :
    ((renderPass sampleDS ["NCR"] [2016] [] .cases true "NCR" "2016" "January" 5 0).map
        (fun o => o.outcome)) = some .added
    ∧ ((renderPass sampleDS ["NCR"] [2016] [] .cases true "NCR" "2016" "January" 5 0).map
        (fun o => o.view)) ≠ some (applyFilters sampleDS ["NCR"] [2016] [] .cases) := by
  constructor
  · decide
  · decide

/-- Claim C1 (amended): a successful append in an interaction pass IS
reflected in that same pass — the displayed view (and the table) are computed
over the dataset with the new row already at its end. -/
theorem claim_C1_amended_view_includes_new_row (df0 : List Row)
    (regions : List String) (years : List Int) (months : List String)
    (mode : Mode) (region yearText month : String) (cases deaths y : Int)
    (hr : region ≠ "-- Select Region --") (hm : month ≠ "-- Select Month --")
    (hy : yearText ≠ "-- Select Year --") (hparse : parseIntText yearText = some y) :
    renderPass df0 regions years months mode true region yearText month cases deaths
      = some { totalCases := total_cases df0, totalDeaths := total_deaths df0,
               outcome := .added,
               view := applyFilters (df0 ++ [mkRow region y month cases deaths])
                         regions years months mode,
               table := sorted_df (df0 ++ [mkRow region y month cases deaths]) } := by
  have hadd := addData_success df0 region yearText month cases deaths y hr hm hy hparse
  simp [renderPass, hadd]

theorem claim_C1_amended_witness :
    renderPass sampleDS ["NCR"] [2016] [] .cases true "NCR" "2016" "January" 5 0
      = some { totalCases := total_cases sampleDS,
               totalDeaths := total_deaths sampleDS,
               outcome := .added,
               view := applyFilters (sampleDS ++ [mkRow "NCR" 2016 "January" 5 0])
                         ["NCR"] [2016] [] .cases,
               table := sorted_df (sampleDS ++ [mkRow "NCR" 2016 "January" 5 0]) } :=
  claim_C1_amended_view_includes_new_row sampleDS ["NCR"] [2016] [] .cases
    "NCR" "2016" "January" 5 0 2016 (by decide) (by decide) (by decide) (by decide)

/-! Claim C10: the appended Year is the parsed integer of the option text. -/

/-- Claim C10 (confirmed): for any year option of the sidebar selector other
than the placeholder, `int(new_year)` succeeds, the appended row stores that
integer in its `Year` field, and the Year filter's membership test of line 94
on the new row is exactly membership of that integer in the selection. -/
theorem claim_C10_year_parsed_integer (df : List Row) (regions : List String)
    (selYears : List Int) (region yearText month : String) (cases deaths : Int)
    (hopt : yearText ∈ yearsWithEmpty)
    (hr : region ≠ "-- Select Region --") (hm : month ≠ "-- Select Month --")
    (hy : yearText ≠ "-- Select Year --") :
    ∃ y : Int, parseIntText yearText = some y
      ∧ addData df region yearText month cases deaths
          = some (.added, df ++ [mkRow region y month cases deaths])
      ∧ (mkRow region y month cases deaths).year = y
      ∧ regionYearPred regions selYears (mkRow region y month cases deaths)
          = (regions.contains region && selYears.contains y) := by
  have hall : ∀ s ∈ yearsWithEmpty, s ≠ "-- Select Year --"
      → (parseIntText s).isSome := by decide
  obtain ⟨y, hy2⟩ := Option.isSome_iff_exists.mp (hall yearText hopt hy)
  exact ⟨y, hy2,
    addData_success df region yearText month cases deaths y hr hm hy hy2, rfl, rfl⟩

theorem claim_C10_witness :
    ∃ y : Int, parseIntText "2016" = some y
      ∧ addData sampleDS "NCR" "2016" "February" 7 2
          = some (.added, sampleDS ++ [mkRow "NCR" y "February" 7 2])
      ∧ (mkRow "NCR" y "February" 7 2).year = y
      ∧ regionYearPred ["NCR"] [2016] (mkRow "NCR" y "February" 7 2)
          = ((["NCR"] : List String).contains "NCR"
              && ([2016] : List Int).contains y) :=
  claim_C10_year_parsed_integer sampleDS ["NCR"] [2016] "NCR" "2016" "February" 7 2
    (by decide) (by decide) (by decide) (by decide)

end Dashboard
